import Mathlib

/-!
Shallow embedding of the `PerformanceMonitor` class (performance-monitor script).

Each definition below translates a method of the JavaScript class
`PerformanceMonitor` (file `src/unnamed/part_000`, the performance-monitor
script) into Lean.  Numbers that the browser hands to the monitor
(`startTime`, `duration`, layout-shift values, byte sizes) are modelled as
rationals `ℚ`; JavaScript arrays become `List`; fallible lookups become
`Option`.  Stateful methods are modelled as explicit state-passing
functions.
-/

namespace PerfMonitor

/-! ## Rating functions (`rateLCP` … `rateTTI`, part_000 lines 1295-1329) -/

/-- Source `rateLCP(value)`: good ≤ 2500, needs-improvement ≤ 4000, else poor. -/
def rateLCP (value : ℚ) : String :=
  if value ≤ 2500 then "good"
  else if value ≤ 4000 then "needs-improvement"
  else "poor"

/-- Source `rateFID(value)`: good ≤ 100, needs-improvement ≤ 300, else poor. -/
def rateFID (value : ℚ) : String :=
  if value ≤ 100 then "good"
  else if value ≤ 300 then "needs-improvement"
  else "poor"

/-- Source `rateINP(value)`: good ≤ 200, needs-improvement ≤ 500, else poor. -/
def rateINP (value : ℚ) : String :=
  if value ≤ 200 then "good"
  else if value ≤ 500 then "needs-improvement"
  else "poor"

/-- Source `rateCLS(value)`: good ≤ 0.1, needs-improvement ≤ 0.25, else poor. -/
def rateCLS (value : ℚ) : String :=
  if value ≤ 1/10 then "good"
  else if value ≤ 1/4 then "needs-improvement"
  else "poor"

/-- Source `rateFCP(value)`: good ≤ 1800, needs-improvement ≤ 3000, else poor. -/
def rateFCP (value : ℚ) : String :=
  if value ≤ 1800 then "good"
  else if value ≤ 3000 then "needs-improvement"
  else "poor"

/-- Source `rateTTI(value)`: good ≤ 3800, needs-improvement ≤ 7300, else poor. -/
def rateTTI (value : ℚ) : String :=
  if value ≤ 3800 then "good"
  else if value ≤ 7300 then "needs-improvement"
  else "poor"

/-! ## Largest Contentful Paint (`measureLCP`, part_000 lines 714-733) -/

/-- A `largest-contentful-paint` performance entry; only `startTime` is read
by `measureLCP` (the `element` field is an opaque DOM reference, not
modelled). -/
structure LCPEntry where
  startTime : ℚ
  deriving Repr, DecidableEq

/-- The record the monitor stores in `this.metrics.coreWebVitals.lcp`
(`timestamp : Date.now()` and `element` are environment references, not
modelled). -/
structure LCPRecord where
  value : ℚ
  rating : String
  deriving Repr, DecidableEq

/-- One `PerformanceObserver` notification of `measureLCP`: the code reads
`entries[entries.length - 1]` and overwrites the stored LCP record with that
entry's `startTime`.  The browser never delivers an empty batch; on an empty
batch the JavaScript would fault on `undefined.startTime`, so the model
keeps the previous record there. -/
def measureLCP_notify (cur : Option LCPRecord) (entries : List LCPEntry) :
    Option LCPRecord :=
  match entries.getLast? with
  | none => cur
  | some lastEntry =>
      some { value := lastEntry.startTime, rating := rateLCP lastEntry.startTime }

/-- The LCP record after a sequence of observer notifications. -/
def measureLCP_run (batches : List (List LCPEntry)) : Option LCPRecord :=
  batches.foldl measureLCP_notify none

/-! ## Interaction to Next Paint (`measureINP`, part_000 lines 768-808) -/

/-- The object pushed onto `interactions`:
`{id: entry.interactionId, latency: entry.duration, timestamp: entry.startTime}`.
`interactionId` is a number, 0 when the event has no interaction. -/
structure Interaction where
  id : Nat
  latency : ℚ
  timestamp : ℚ
  deriving Repr, DecidableEq

/-- Source `interactions.push(entry)` followed by
`if (interactions.length > 10) interactions = interactions.slice(-10)`;
`slice(-10)` keeps the last ten elements. -/
def pushInteraction (interactions : List Interaction) (entry : Interaction) :
    List Interaction :=
  let interactions := interactions ++ [entry]
  if 10 < interactions.length then
    interactions.drop (interactions.length - 10)
  else interactions

/-- One observer entry of `measureINP`: the body runs only when
`entry.interactionId` is truthy (non-zero). -/
def inpProcessEntry (interactions : List Interaction) (entry : Interaction) :
    List Interaction :=
  if entry.id ≠ 0 then pushInteraction interactions entry else interactions

/-- The interaction window after a sequence of event-timing entries. -/
def inpWindow (entries : List Interaction) : List Interaction :=
  entries.foldl inpProcessEntry []

/-- The INP computation:
`sortedLatencies = interactions.map(i => i.latency).sort((a,b) => a-b)` and
`inp = sortedLatencies[Math.floor(sortedLatencies.length * 0.98)]`.
The ascending numeric sort is modelled by `insertionSort (· ≤ ·)` (any
correct ascending sort yields the same value list); for the window sizes the
code can reach (length ≤ 10) the double computation
`Math.floor(length * 0.98)` equals the exact `length * 98 / 100` in natural
division, which is how the index is written here. -/
def inpOf (interactions : List Interaction) : Option ℚ :=
  let sortedLatencies :=
    List.insertionSort (· ≤ ·) (interactions.map fun i => i.latency)
  sortedLatencies[(sortedLatencies.length * 98) / 100]?

/-! ## Cumulative Layout Shift (`measureCLS`, part_000 lines 813-856) -/

/-- A `layout-shift` performance entry (the `sources` field is an opaque DOM
reference, not modelled). -/
structure LayoutShiftEntry where
  startTime : ℚ
  value : ℚ
  hadRecentInput : Bool
  deriving Repr, DecidableEq

/-- The closure state of `measureCLS`: `clsValue`, `sessionValue`,
`sessionEntries`. -/
structure CLSState where
  clsValue : ℚ
  sessionValue : ℚ
  sessionEntries : List LayoutShiftEntry
  deriving Repr, DecidableEq

/-- Source `let clsValue = 0, sessionValue = 0, sessionEntries = []`. -/
def clsInit : CLSState := { clsValue := 0, sessionValue := 0, sessionEntries := [] }

/-- One layout-shift entry processed by `measureCLS`.  The JavaScript guard is
`sessionValue && entry.startTime - lastSessionEntry.startTime < 1000 &&
entry.startTime - firstSessionEntry.startTime < 5000`; the number
`sessionValue` is truthy exactly when it is non-zero, and the short-circuit
means `sessionEntries` is only dereferenced when it is non-empty (from the
initial state, `sessionValue ≠ 0` implies `sessionEntries ≠ []`, so the
`false` fallback of the match is unreachable there).  Afterwards
`if (sessionValue > clsValue) clsValue = sessionValue`. -/
def clsStep (s : CLSState) (entry : LayoutShiftEntry) : CLSState :=
  if entry.hadRecentInput then s
  else
    let sameSession : Bool :=
      match s.sessionEntries.head?, s.sessionEntries.getLast? with
      | some firstSessionEntry, some lastSessionEntry =>
          decide (s.sessionValue ≠ 0) &&
          decide (entry.startTime - lastSessionEntry.startTime < 1000) &&
          decide (entry.startTime - firstSessionEntry.startTime < 5000)
      | _, _ => false
    let s1 :=
      if sameSession then
        { s with sessionValue := s.sessionValue + entry.value,
                 sessionEntries := s.sessionEntries ++ [entry] }
      else
        { s with sessionValue := entry.value, sessionEntries := [entry] }
    if s.clsValue < s1.sessionValue then { s1 with clsValue := s1.sessionValue }
    else s1

/-- The CLS state after a sequence of layout-shift entries. -/
def clsRun (entries : List LayoutShiftEntry) : CLSState :=
  entries.foldl clsStep clsInit

/-- The running session values produced while processing a sequence of
entries from state `s` (one value per entry, taken after the entry is
processed). -/
def clsTraceFrom (s : CLSState) : List LayoutShiftEntry → List ℚ
  | [] => []
  | e :: es =>
      let s1 := clsStep s e
      s1.sessionValue :: clsTraceFrom s1 es

/-- Modelled from the amended claim's words (not from the source): the
accumulator starts a new session exactly when the current session value is
zero, or the new entry's `startTime` is at least 1000 ms after the session's
last entry or at least 5000 ms after the session's first entry (or no session
exists yet); otherwise the entry's value is added to the current session.  The
reported CLS is the running maximum of the session values. -/
def clsStepAmended (s : CLSState) (entry : LayoutShiftEntry) : CLSState :=
  if entry.hadRecentInput then s
  else
    let newSession : Bool :=
      match s.sessionEntries.head?, s.sessionEntries.getLast? with
      | some firstSessionEntry, some lastSessionEntry =>
          decide (s.sessionValue = 0) ||
          decide (1000 ≤ entry.startTime - lastSessionEntry.startTime) ||
          decide (5000 ≤ entry.startTime - firstSessionEntry.startTime)
      | _, _ => true
    let s1 :=
      if newSession then
        { s with sessionValue := entry.value, sessionEntries := [entry] }
      else
        { s with sessionValue := s.sessionValue + entry.value,
                 sessionEntries := s.sessionEntries ++ [entry] }
    { s1 with clsValue := max s.clsValue s1.sessionValue }

/-- The amended-rule CLS state after a sequence of layout-shift entries. -/
def clsRunAmended (entries : List LayoutShiftEntry) : CLSState :=
  entries.foldl clsStepAmended clsInit

/-- Modelled from claim C1's words (not from the source): the session-split
rule exactly as the claim states it — a new session starts exactly when the
new entry's `startTime` exceeds (strictly) 1000 ms from the session's last
entry or 5000 ms from the session's first entry; otherwise the entry's value
is added to the current session.  The reported CLS is the maximum session sum
seen so far. -/
def clsStepClaim (s : CLSState) (entry : LayoutShiftEntry) : CLSState :=
  if entry.hadRecentInput then s
  else
    let newSession : Bool :=
      match s.sessionEntries.head?, s.sessionEntries.getLast? with
      | some firstSessionEntry, some lastSessionEntry =>
          decide (1000 < entry.startTime - lastSessionEntry.startTime) ||
          decide (5000 < entry.startTime - firstSessionEntry.startTime)
      | _, _ => true
    let s1 :=
      if newSession then
        { s with sessionValue := entry.value, sessionEntries := [entry] }
      else
        { s with sessionValue := s.sessionValue + entry.value,
                 sessionEntries := s.sessionEntries ++ [entry] }
    { s1 with clsValue := max s.clsValue s1.sessionValue }

/-- The claim-rule CLS state after a sequence of layout-shift entries. -/
def clsRunClaim (entries : List LayoutShiftEntry) : CLSState :=
  entries.foldl clsStepClaim clsInit

/-! ## Resource classifier (`analyzeResourcePerformance`, part_000 lines 1168-1199) -/

/-- A `resource` performance entry, restricted to the fields
`analyzeResourcePerformance` reads. -/
structure ResourceEntry where
  name : String
  transferSize : ℚ
  decodedBodySize : ℚ
  encodedBodySize : ℚ
  startTime : ℚ
  responseEnd : ℚ
  deriving Repr, DecidableEq

/-- Models `Number.prototype.toFixed(1)` followed by the numeric coercion the
comparison `< 50` performs: round to the nearest multiple of 1/10, ties
toward the larger value. -/
def toFixed1 (x : ℚ) : ℚ := (⌊x * 10 + 1/2⌋ : ℚ) / 10

/-- Source `analysis.compression`: when `encodedBodySize > 0` the percentage
`(decodedBodySize - encodedBodySize) / decodedBodySize * 100` formatted with
`toFixed(1)` (a string, numerically coerced back when compared with 50),
otherwise the number 0. -/
def compressionOf (entry : ResourceEntry) : ℚ :=
  if 0 < entry.encodedBodySize then
    toFixed1 ((entry.decodedBodySize - entry.encodedBodySize) /
      entry.decodedBodySize * 100)
  else 0

/-- The regex `/\.(css|js|woff2?|png|jpg|jpeg)$/` as a suffix test on the
URL's characters (the regex matches exactly when the URL ends in one of these
extensions, dot included). -/
def matchesCacheableExt (url : String) : Bool :=
  List.isSuffixOf ".css".data url.data ||
  List.isSuffixOf ".js".data url.data ||
  List.isSuffixOf ".woff".data url.data ||
  List.isSuffixOf ".woff2".data url.data ||
  List.isSuffixOf ".png".data url.data ||
  List.isSuffixOf ".jpg".data url.data ||
  List.isSuffixOf ".jpeg".data url.data

/-- Source `analysis.cached = entry.transferSize === 0 && entry.decodedBodySize > 0`. -/
def resourceCached (entry : ResourceEntry) : Bool :=
  decide (entry.transferSize = 0) && decide (0 < entry.decodedBodySize)

/-- The issue list built by `analyzeResourcePerformance`:
`slow_loading` when `duration > 3000` with
`duration = responseEnd - startTime`; `poor_compression` when
`size > 1000000 && compression < 50` with `size = transferSize`;
`not_cached` when `!cached` and the URL matches the extension regex. -/
def analyzeResourcePerformance (entry : ResourceEntry) : List String :=
  let duration := entry.responseEnd - entry.startTime
  let size := entry.transferSize
  let issues : List String := []
  let issues :=
    if 3000 < duration then issues ++ ["slow_loading"] else issues
  let issues :=
    if 1000000 < size ∧ compressionOf entry < 50 then
      issues ++ ["poor_compression"]
    else issues
  let issues :=
    if !resourceCached entry && matchesCacheableExt entry.name then
      issues ++ ["not_cached"]
    else issues
  issues

/-- Modelled from claim C8's words (not from the source): `poor_compression`
uses the exact (unrounded) compression ratio, and zero transfer size alone is
treated as a cache hit. -/
def analyzeResourceClaim (entry : ResourceEntry) : List String :=
  let duration := entry.responseEnd - entry.startTime
  let size := entry.transferSize
  let ratio := (entry.decodedBodySize - entry.encodedBodySize) /
    entry.decodedBodySize * 100
  let issues : List String := []
  let issues :=
    if 3000 < duration then issues ++ ["slow_loading"] else issues
  let issues :=
    if 1000000 < size ∧ ratio < 50 then issues ++ ["poor_compression"]
    else issues
  let issues :=
    if ¬entry.transferSize = 0 ∧ matchesCacheableExt entry.name = true then
      issues ++ ["not_cached"]
    else issues
  issues

/-! ## Report buffer and transport
(`reportMetric` lines 1231-1241, `sendReport` lines 1246-1276,
`getSummary` lines 1281-1290, `destroy` lines 1397-1409 of part_000) -/

/-- An element of `this.buffer`:
`{name, data, timestamp: Date.now()}`.  The `data` payload is an arbitrary
JavaScript object the claims never inspect; it is carried as an opaque
string. -/
structure MetricSample where
  name : String
  data : String
  timestamp : Nat
  deriving Repr, DecidableEq

/-- A record stored under `this.metrics.coreWebVitals` (value, rating,
timestamp; further fields are opaque). -/
structure MetricRecord where
  value : ℚ
  rating : String
  timestamp : Nat
  deriving Repr, DecidableEq

/-- Source `this.metrics`, restricted to the fields `getSummary` reads.  Mapping
objects are association lists; `customMetrics` only contributes
`Object.keys(...).length`. -/
structure Metrics where
  coreWebVitals : List (String × MetricRecord)
  userTimings : List MetricSample
  resourceTimings : List MetricSample
  navigationTiming : List (String × ℚ)
  memoryInfo : List (String × ℚ)
  customMetrics : List (String × ℚ)
  deriving Repr, DecidableEq

/-- The summary object returned by `getSummary`. -/
structure Summary where
  coreWebVitals : List (String × MetricRecord)
  navigationTiming : List (String × ℚ)
  memoryInfo : List (String × ℚ)
  resourceCount : Nat
  userTimingCount : Nat
  customMetricCount : Nat
  deriving Repr, DecidableEq

/-- Source `getSummary()`. -/
def getSummary (m : Metrics) : Summary :=
  { coreWebVitals := m.coreWebVitals
    navigationTiming := m.navigationTiming
    memoryInfo := m.memoryInfo
    resourceCount := m.resourceTimings.length
    userTimingCount := m.userTimings.length
    customMetricCount := m.customMetrics.length }

/-- The constructor options read by the buffering code. -/
structure Options where
  reportingEndpoint : String
  bufferSize : Nat
  reportInterval : Nat
  debugMode : Bool
  deriving Repr, DecidableEq

/-- Ambient browser state read by `sendReport`: `window.location.href`,
`navigator.userAgent`, `Date.now()`, and whether `navigator.sendBeacon`
exists. -/
structure Env where
  href : String
  userAgent : String
  now : Nat
  sendBeaconAvailable : Bool
  deriving Repr, DecidableEq

/-- The monitor's mutable state relevant to buffering: `this.buffer`,
`this.metrics`, and the resources torn down by `destroy`
(`this.observer`, `this.reportTimer`). -/
structure MonitorState where
  options : Options
  metrics : Metrics
  buffer : List MetricSample
  observerConnected : Bool
  reportTimerActive : Bool
  deriving Repr, DecidableEq

/-- The report envelope built by `sendReport`. -/
structure Report where
  url : String
  userAgent : String
  timestamp : Nat
  metrics : List MetricSample
  summary : Summary
  deriving Repr, DecidableEq

/-- Which transport `sendReport` used. -/
inductive Transport where
  | beacon
  | fetchPost
  deriving Repr, DecidableEq

/-- Source `sendReport(immediate)`: returns at once when the buffer is empty;
otherwise builds the envelope from the current buffer contents, empties the
buffer (`this.buffer = []` happens before any send), and sends via
`navigator.sendBeacon` when `immediate` is true and the beacon API exists,
else via `fetch` POST.  The returned option is the attempted send. -/
def sendReport (env : Env) (st : MonitorState) (immediate : Bool) :
    MonitorState × Option (Report × Transport) :=
  if st.buffer.length = 0 then (st, none)
  else
    let report : Report :=
      { url := env.href
        userAgent := env.userAgent
        timestamp := env.now
        metrics := st.buffer
        summary := getSummary st.metrics }
    let st1 := { st with buffer := [] }
    let transport :=
      if immediate && env.sendBeaconAvailable then Transport.beacon
      else Transport.fetchPost
    (st1, some (report, transport))

/-- The `fetch(...).catch(...)` handler: on any transport outcome the monitor
state is untouched (the handler only writes to the console, and only in debug
mode); in particular a failed report is never re-buffered. -/
def afterTransport (st : MonitorState) (_succeeded : Bool) : MonitorState := st

/-- Source `reportMetric(name, data)`: push `{name, data, timestamp: Date.now()}`
onto the buffer, then `if (this.buffer.length >= this.options.bufferSize)
this.sendReport()`. -/
def reportMetric (env : Env) (st : MonitorState) (name : String)
    (payload : String) : MonitorState × Option (Report × Transport) :=
  let st1 :=
    { st with buffer :=
        st.buffer ++ [{ name := name, data := payload, timestamp := env.now }] }
  if st1.options.bufferSize ≤ st1.buffer.length then sendReport env st1 false
  else (st1, none)

/-- Source `destroy()`: disconnect `this.observer`, clear `this.reportTimer`, then
`this.sendReport(true)`. -/
def destroy (env : Env) (st : MonitorState) :
    MonitorState × Option (Report × Transport) :=
  let st1 := { st with observerConnected := false, reportTimerActive := false }
  sendReport env st1 true

/-- A sequence of `reportMetric` calls; returns the final state and how many
automatic flushes (`sendReport` attempts) the calls triggered. -/
def recordMany (env : Env) (st : MonitorState) :
    List (String × String) → MonitorState × Nat
  | [] => (st, 0)
  | s :: rest =>
      let r := reportMetric env st s.1 s.2
      let r2 := recordMany env r.1 rest
      (r2.1, (if r.2.isSome then 1 else 0) + r2.2)

/-! ## Concrete test fixtures used by the witness statements -/

/-- A concrete environment. -/
def testEnv : Env :=
  { href := "https://example.com/", userAgent := "ua", now := 1000,
    sendBeaconAvailable := true }

/-- An empty `this.metrics`. -/
def testMetrics : Metrics :=
  { coreWebVitals := [], userTimings := [], resourceTimings := [],
    navigationTiming := [], memoryInfo := [], customMetrics := [] }

/-- A monitor state with capacity 2 and an empty buffer. -/
def testState2 : MonitorState :=
  { options := { reportingEndpoint := "/api/performance", bufferSize := 2,
                 reportInterval := 30000, debugMode := false }
    metrics := testMetrics
    buffer := []
    observerConnected := true
    reportTimerActive := true }

/-- Eleven event-timing entries, all with non-zero interaction ids. -/
def elevenInteractions : List Interaction :=
  [⟨1, 10, 0⟩, ⟨2, 20, 1⟩, ⟨3, 30, 2⟩, ⟨4, 40, 3⟩, ⟨5, 50, 4⟩, ⟨6, 60, 5⟩,
   ⟨7, 70, 6⟩, ⟨8, 80, 7⟩, ⟨9, 90, 8⟩, ⟨10, 100, 9⟩, ⟨11, 110, 10⟩]

/-- A monitor state with the default capacity 100 and one buffered sample. -/
def testState100 : MonitorState :=
  { options := { reportingEndpoint := "/api/performance", bufferSize := 100,
                 reportInterval := 30000, debugMode := false }
    metrics := testMetrics
    buffer := [{ name := "lcp", data := "d", timestamp := 5 }]
    observerConnected := true
    reportTimerActive := true }

/-! ## Theorems -/

theorem ratingBand (t1 t2 v : ℚ) (h : t1 ≤ t2) :
    ((if v ≤ t1 then "good" else if v ≤ t2 then "needs-improvement" else "poor")
        = "good" ↔ v ≤ t1) ∧
    ((if v ≤ t1 then "good" else if v ≤ t2 then "needs-improvement" else "poor")
        = "needs-improvement" ↔ t1 < v ∧ v ≤ t2) ∧
    ((if v ≤ t1 then "good" else if v ≤ t2 then "needs-improvement" else "poor")
        = "poor" ↔ t2 < v) := by
  split_ifs with h1 h2 <;> refine ⟨?_, ?_, ?_⟩ <;> simp_all <;> linarith

/-- Claim C9: each rating function's bands are upper-bound inclusive: `good` at
or below the first threshold, `needs-improvement` strictly above it and at or
below the second, `poor` strictly above the second; in particular
`rateLCP 2499 = rateLCP 2500 = "good"`, `rateLCP 2501 = "needs-improvement"`,
and `rateLCP 4001 = "poor"`. -/
theorem rating_bands_inclusive (v : ℚ) :
    (rateLCP v = "good" ↔ v ≤ 2500) ∧
    (rateLCP v = "needs-improvement" ↔ 2500 < v ∧ v ≤ 4000) ∧
    (rateLCP v = "poor" ↔ 4000 < v) ∧
    (rateFID v = "good" ↔ v ≤ 100) ∧
    (rateFID v = "needs-improvement" ↔ 100 < v ∧ v ≤ 300) ∧
    (rateFID v = "poor" ↔ 300 < v) ∧
    (rateINP v = "good" ↔ v ≤ 200) ∧
    (rateINP v = "needs-improvement" ↔ 200 < v ∧ v ≤ 500) ∧
    (rateINP v = "poor" ↔ 500 < v) ∧
    (rateCLS v = "good" ↔ v ≤ 1/10) ∧
    (rateCLS v = "needs-improvement" ↔ 1/10 < v ∧ v ≤ 1/4) ∧
    (rateCLS v = "poor" ↔ 1/4 < v) ∧
    (rateFCP v = "good" ↔ v ≤ 1800) ∧
    (rateFCP v = "needs-improvement" ↔ 1800 < v ∧ v ≤ 3000) ∧
    (rateFCP v = "poor" ↔ 3000 < v) ∧
    (rateTTI v = "good" ↔ v ≤ 3800) ∧
    (rateTTI v = "needs-improvement" ↔ 3800 < v ∧ v ≤ 7300) ∧
    (rateTTI v = "poor" ↔ 7300 < v) ∧
    rateLCP 2499 = "good" ∧ rateLCP 2500 = "good" ∧
    rateLCP 2501 = "needs-improvement" ∧ rateLCP 4001 = "poor" := by
  have hL := ratingBand 2500 4000 v (by norm_num)
  have hF := ratingBand 100 300 v (by norm_num)
  have hI := ratingBand 200 500 v (by norm_num)
  have hC := ratingBand (1/10) (1/4) v (by norm_num)
  have hP := ratingBand 1800 3000 v (by norm_num)
  have hT := ratingBand 3800 7300 v (by norm_num)
  exact ⟨hL.1, hL.2.1, hL.2.2, hF.1, hF.2.1, hF.2.2, hI.1, hI.2.1, hI.2.2,
    hC.1, hC.2.1, hC.2.2, hP.1, hP.2.1, hP.2.2, hT.1, hT.2.1, hT.2.2,
    by norm_num [rateLCP], by norm_num [rateLCP],
    by norm_num [rateLCP], by norm_num [rateLCP]⟩

/-- Witness for C9, instantiated at 2500. -/
theorem rating_bands_inclusive_witness : rateLCP 2500 = "good" :=
  (rating_bands_inclusive 2500).1.mpr (by norm_num)

theorem measureLCP_foldl_last (batches : List (List LCPEntry)) :
    ∀ (cur : Option LCPRecord) (b : List LCPEntry) (e : LCPEntry),
      batches.getLast? = some b → b.getLast? = some e →
      batches.foldl measureLCP_notify cur =
        some { value := e.startTime, rating := rateLCP e.startTime } := by
  induction batches with
  | nil => intro cur b e hb _; simp at hb
  | cons bb bs ih =>
    intro cur b e hb he
    cases bs with
    | nil =>
        simp only [List.getLast?_singleton, Option.some.injEq] at hb
        subst hb
        simp [measureLCP_notify, he]
    | cons b2 bs2 =>
        rw [List.getLast?_cons_cons] at hb
        simpa using ih _ b e hb he

/-- Claim C6: for every sequence of LCP observer notifications whose final
notification delivers a non-empty batch, the reported LCP record carries the
`startTime` of the last entry of that final batch — the most recently
delivered entry — never an earlier one. -/
theorem lcp_reported_is_last_entry (batches : List (List LCPEntry))
    (b : List LCPEntry) (e : LCPEntry)
    (hb : batches.getLast? = some b) (he : b.getLast? = some e) :
    measureLCP_run batches =
      some { value := e.startTime, rating := rateLCP e.startTime } :=
  measureLCP_foldl_last batches none b e hb he

/-- Witness for C6: three entries over two notifications; the report shows
the most recent `startTime` 300, not 100 or 200. -/
theorem lcp_reported_is_last_entry_witness :
    measureLCP_run [[⟨100⟩, ⟨200⟩], [⟨300⟩]] =
      some { value := 300, rating := rateLCP 300 } :=
  lcp_reported_is_last_entry [[⟨100⟩, ⟨200⟩], [⟨300⟩]] [⟨300⟩] ⟨300⟩
    (by simp) (by simp)

theorem pushInteraction_full (w : List Interaction) (e : Interaction)
    (hw : w.length = 10) : pushInteraction w e = (w ++ [e]).drop 1 := by
  unfold pushInteraction
  simp [hw]

theorem pushInteraction_small (w : List Interaction) (e : Interaction)
    (hw : w.length < 10) : pushInteraction w e = w ++ [e] := by
  unfold pushInteraction
  rw [if_neg]
  simp
  omega

theorem inpWindow_foldl_drop (l : List Interaction) :
    ∀ w : List Interaction, w.length ≤ 10 →
      l.foldl pushInteraction w = (w ++ l).drop ((w ++ l).length - 10) := by
  induction l with
  | nil =>
      intro w hw
      simp [Nat.sub_eq_zero_of_le hw]
  | cons e l ih =>
      intro w hw
      rw [List.foldl_cons]
      rcases lt_or_eq_of_le hw with hlt | h10
      · rw [pushInteraction_small w e hlt, ih _ (by simp; omega)]
        rw [List.append_assoc]
        simp
      · rw [pushInteraction_full w e h10]
        have hlen : ((w ++ [e]).drop 1).length = 10 := by simp [← h10]
        rw [ih _ (le_of_eq hlen)]
        have h1 : (w ++ [e]).drop 1 ++ l = ((w ++ [e]) ++ l).drop 1 :=
          (List.drop_append_of_le_length (by simp)).symm
        have h2 : ((w ++ [e]).drop 1 ++ l).length - 10 = l.length := by
          simp [← h10]
        rw [h2, h1, List.drop_drop]
        have h3 : (w ++ [e]) ++ l = w ++ e :: l := by simp
        rw [h3]
        congr 1
        simp [← h10]
        omega

theorem inpProcess_eq_push (l : List Interaction) :
    ∀ w, (∀ e ∈ l, e.id ≠ 0) →
      l.foldl inpProcessEntry w = l.foldl pushInteraction w := by
  induction l with
  | nil => intro w _; rfl
  | cons e l ih =>
      intro w h
      rw [List.foldl_cons, List.foldl_cons]
      unfold inpProcessEntry
      rw [if_pos (h e (List.mem_cons_self e l))]
      exact ih _ fun x hx => h x (List.mem_cons_of_mem e hx)

/-- Claim C2: after eleven event-timing entries with non-zero interaction ids,
the interaction window holds exactly the last ten in arrival order (the
oldest evicted FIFO), and the reported INP is
`sortedLatencies[floor(n * 0.98)]` — index 9 — over the sorted latencies of
that window. -/
theorem inp_window_after_eleven (l : List Interaction) (h11 : l.length = 11)
    (hid : ∀ e ∈ l, e.id ≠ 0) :
    inpWindow l = l.drop 1 ∧ (inpWindow l).length = 10 ∧
    inpOf (inpWindow l) =
      (List.insertionSort (· ≤ ·) ((l.drop 1).map fun i => i.latency))[9]? := by
  have hw : inpWindow l = l.drop 1 := by
    unfold inpWindow
    rw [inpProcess_eq_push l [] hid, inpWindow_foldl_drop l [] (by simp)]
    simp [h11]
  have hlen : (l.drop 1).length = 10 := by simp [h11]
  refine ⟨hw, by rw [hw, hlen], ?_⟩
  rw [hw]
  simp only [inpOf]
  have hslen :
      (List.insertionSort (· ≤ ·) ((l.drop 1).map fun i => i.latency)).length
        = 10 := by
    rw [List.length_insertionSort, List.length_map, hlen]
  rw [hslen]

/-- Witness for C2, at eleven concrete interactions. -/
theorem inp_window_after_eleven_witness :
    inpWindow elevenInteractions = elevenInteractions.drop 1 ∧
    (inpWindow elevenInteractions).length = 10 ∧
    inpOf (inpWindow elevenInteractions) =
      (List.insertionSort (· ≤ ·)
        ((elevenInteractions.drop 1).map fun i => i.latency))[9]? :=
  inp_window_after_eleven elevenInteractions (by simp [elevenInteractions])
    (by decide)

theorem percentileIdx (n : Nat) (h1 : 1 ≤ n) (h2 : n ≤ 10) :
    n * 98 / 100 = n - 1 := by
  interval_cases n <;> rfl

/-- Claim C10: for a window of between 1 and 10 interactions, the percentile
index `floor(n * 0.98)` equals `n - 1`, so the reported INP is the maximum
latency currently in the window. -/
theorem inp_is_window_max (w : List Interaction) (h1 : 1 ≤ w.length)
    (h10 : w.length ≤ 10) :
    ∃ m, inpOf w = some m ∧ m ∈ w.map (fun i => i.latency) ∧
      ∀ x ∈ w.map (fun i => i.latency), x ≤ m := by
  simp only [inpOf]
  set lats := w.map fun i => i.latency with hlats
  set sorted := List.insertionSort (· ≤ ·) lats with hsorted
  have hslen : sorted.length = w.length := by
    rw [hsorted, List.length_insertionSort, hlats, List.length_map]
  have hne : sorted ≠ [] := by
    intro hnil
    rw [hnil] at hslen
    simp at hslen
    omega
  have hidx : sorted.length * 98 / 100 = sorted.length - 1 :=
    percentileIdx _ (by omega) (by omega)
  have hsortedS : sorted.Sorted (· ≤ ·) := List.sorted_insertionSort _ lats
  refine ⟨sorted.getLast hne, ?_, ?_, ?_⟩
  · rw [hidx, ← List.getLast?_eq_getElem?, List.getLast?_eq_getLast _ hne]
  · exact (List.perm_insertionSort _ lats).subset (List.getLast_mem hne)
  · intro x hx
    have hxs : x ∈ sorted := (List.perm_insertionSort _ lats).symm.subset hx
    obtain ⟨i, hget⟩ := List.mem_iff_get.mp hxs
    have hgl : sorted.getLast hne = sorted.get ⟨sorted.length - 1, by omega⟩ := by
      rw [List.getLast_eq_getElem]
      simp [List.get_eq_getElem]
    rw [← hget, hgl]
    exact hsortedS.rel_get_of_le (by simp [Fin.le_def]; omega)

/-- Witness for C10: a two-interaction window; the reported INP is the larger
latency 5. -/
theorem inp_is_window_max_witness :
    ∃ m, inpOf [⟨1, 5, 0⟩, ⟨2, 3, 0⟩] = some m ∧
      m ∈ [Interaction.mk 1 5 0, Interaction.mk 2 3 0].map (fun i => i.latency) ∧
      ∀ x ∈ [Interaction.mk 1 5 0, Interaction.mk 2 3 0].map (fun i => i.latency),
        x ≤ m :=
  inp_is_window_max [⟨1, 5, 0⟩, ⟨2, 3, 0⟩] (by simp) (by simp)

theorem clsCond_not_both {sv d1 d2 c1 c2 : ℚ}
    (h1 : (decide (sv ≠ 0) && decide (d1 < c1) && decide (d2 < c2)) = true)
    (h3 : (decide (sv = 0) || decide (c1 ≤ d1) || decide (c2 ≤ d2)) = true) :
    False := by
  rw [Bool.and_eq_true, Bool.and_eq_true] at h1
  rw [Bool.or_eq_true, Bool.or_eq_true] at h3
  have a1 : sv ≠ 0 := of_decide_eq_true h1.1.1
  have a2 : d1 < c1 := of_decide_eq_true h1.1.2
  have a3 : d2 < c2 := of_decide_eq_true h1.2
  rcases h3 with (h | h) | h
  · exact a1 (of_decide_eq_true h)
  · have : c1 ≤ d1 := of_decide_eq_true h
    linarith
  · have : c2 ≤ d2 := of_decide_eq_true h
    linarith

theorem clsCond_one {sv d1 d2 c1 c2 : ℚ}
    (h1 : ¬(decide (sv ≠ 0) && decide (d1 < c1) && decide (d2 < c2)) = true)
    (h3 : ¬(decide (sv = 0) || decide (c1 ≤ d1) || decide (c2 ≤ d2)) = true) :
    False := by
  have h3f : (decide (sv = 0) || decide (c1 ≤ d1) || decide (c2 ≤ d2)) = false :=
    Bool.eq_false_iff.mpr h3
  rw [Bool.or_eq_false_iff, Bool.or_eq_false_iff] at h3f
  have b1 : ¬sv = 0 := of_decide_eq_false h3f.1.1
  have b2 : ¬c1 ≤ d1 := of_decide_eq_false h3f.1.2
  have b3 : ¬c2 ≤ d2 := of_decide_eq_false h3f.2
  apply h1
  rw [Bool.and_eq_true, Bool.and_eq_true]
  exact ⟨⟨decide_eq_true b1, decide_eq_true (lt_of_not_le b2)⟩,
    decide_eq_true (lt_of_not_le b3)⟩

theorem clsStep_eq_amended (s : CLSState) (e : LayoutShiftEntry) :
    clsStep s e = clsStepAmended s e := by
  unfold clsStep clsStepAmended
  by_cases hin : e.hadRecentInput = true
  · simp [hin]
  · simp only [hin, Bool.false_eq_true, if_false]
    rcases hse : s.sessionEntries with _ | ⟨a, t⟩
    · simp only [hse, List.head?_nil, List.getLast?_nil, Bool.false_eq_true,
        if_false, if_true]
      split_ifs with g1
      · rw [max_eq_right (le_of_lt g1)]
      · rw [max_eq_left (not_lt.mp g1)]
    · obtain ⟨lastE, hl⟩ : ∃ x, (a :: t).getLast? = some x :=
        ⟨_, List.getLast?_eq_getLast _ (by simp)⟩
      simp only [hse, List.head?_cons, hl]
      split_ifs with h1 h2 h3 h4 h5 h6 h7
      · exact (clsCond_not_both h1 h3).elim
      · rw [max_eq_right (le_of_lt h2)]
      · exact (clsCond_not_both h1 h4).elim
      · rw [max_eq_left (not_lt.mp h2)]
      · rw [max_eq_right (le_of_lt h5)]
      · exact (clsCond_one h1 h6).elim
      · rw [max_eq_left (not_lt.mp h5)]
      · exact (clsCond_one h1 h7).elim

theorem clsStep_funext : clsStep = clsStepAmended :=
  funext fun s => funext fun e => clsStep_eq_amended s e

theorem clsRun_eq_amended (entries : List LayoutShiftEntry) :
    clsRun entries = clsRunAmended entries := by
  unfold clsRun clsRunAmended
  rw [clsStep_funext]

theorem clsStepAmended_clsValue (s : CLSState) (e : LayoutShiftEntry)
    (hs : s.sessionValue ≤ s.clsValue) :
    (clsStepAmended s e).clsValue =
      max s.clsValue (clsStepAmended s e).sessionValue := by
  unfold clsStepAmended
  by_cases hin : e.hadRecentInput = true
  · simp [hin, max_eq_left hs]
  · simp only [hin, Bool.false_eq_true, if_false]

theorem clsStep_clsValue (s : CLSState) (e : LayoutShiftEntry)
    (hs : s.sessionValue ≤ s.clsValue) :
    (clsStep s e).clsValue = max s.clsValue (clsStep s e).sessionValue := by
  rw [clsStep_eq_amended]
  exact clsStepAmended_clsValue s e hs

theorem clsStep_inv (s : CLSState) (e : LayoutShiftEntry)
    (hs : s.sessionValue ≤ s.clsValue) :
    (clsStep s e).sessionValue ≤ (clsStep s e).clsValue := by
  rw [clsStep_clsValue s e hs]
  exact le_max_right _ _

theorem clsStep_mono (s : CLSState) (e : LayoutShiftEntry) :
    s.clsValue ≤ (clsStep s e).clsValue := by
  rw [clsStep_eq_amended]
  unfold clsStepAmended
  by_cases hin : e.hadRecentInput = true
  · simp [hin]
  · simp only [hin, Bool.false_eq_true, if_false]
    exact le_max_left _ _

theorem clsValue_eq_foldl_max :
    ∀ (l : List LayoutShiftEntry) (s : CLSState),
      s.sessionValue ≤ s.clsValue →
      (l.foldl clsStep s).clsValue = (clsTraceFrom s l).foldl max s.clsValue := by
  intro l
  induction l with
  | nil => intro s _; rfl
  | cons e l ih =>
      intro s hs
      rw [List.foldl_cons]
      rw [ih (clsStep s e) (clsStep_inv s e hs)]
      show _ = (clsTraceFrom s (e :: l)).foldl max s.clsValue
      simp only [clsTraceFrom, List.foldl_cons]
      rw [← clsStep_clsValue s e hs]

theorem clsValue_mono :
    ∀ (l : List LayoutShiftEntry) (s : CLSState),
      s.clsValue ≤ (l.foldl clsStep s).clsValue := by
  intro l
  induction l with
  | nil => intro s; exact le_refl _
  | cons e l ih =>
      intro s
      rw [List.foldl_cons]
      exact le_trans (clsStep_mono s e) (ih (clsStep s e))

/-- Claim C1 (amended): the accumulator starts a new session exactly when the
current session value is zero (a falsy `sessionValue`), or the new entry's
`startTime` is **at least** 1000 ms after the session's last entry, or **at
least** 5000 ms after the session's first entry (the source tests
`gap < 1000` / `gap < 5000`, so a gap of exactly 1000 ms or 5000 ms splits);
otherwise the entry's value is added to the current session.  The reported
CLS equals the running maximum of the per-entry session values (`max` with
the initial 0) and is monotonically non-decreasing across the page
lifetime. -/
theorem cls_session_rule_amended (entries : List LayoutShiftEntry) :
    clsRun entries = clsRunAmended entries ∧
    (clsRun entries).clsValue = (clsTraceFrom clsInit entries).foldl max 0 ∧
    ∀ k : Nat, (clsRun (entries.take k)).clsValue ≤ (clsRun entries).clsValue := by
  refine ⟨clsRun_eq_amended entries, ?_, ?_⟩
  · exact clsValue_eq_foldl_max entries clsInit (le_refl 0)
  · intro k
    have hsplit : clsRun entries =
        (entries.drop k).foldl clsStep (clsRun (entries.take k)) := by
      unfold clsRun
      rw [← List.foldl_append, List.take_append_drop]
    rw [hsplit]
    exact clsValue_mono _ _

/-- Witness for C1: a two-entry run evaluated through the amended theorem. -/
theorem cls_session_rule_amended_witness :
    clsRun [⟨0, 1/10, false⟩, ⟨1000, 1/10, false⟩] =
      clsRunAmended [⟨0, 1/10, false⟩, ⟨1000, 1/10, false⟩] ∧
    (clsRun ([(⟨0, 1/10, false⟩ : LayoutShiftEntry),
        ⟨1000, 1/10, false⟩].take 1)).clsValue ≤
      (clsRun [⟨0, 1/10, false⟩, ⟨1000, 1/10, false⟩]).clsValue :=
  ⟨(cls_session_rule_amended _).1, (cls_session_rule_amended _).2.2 1⟩

/-- Counterexample to C1 as stated: the claim splits sessions only when the
gap strictly exceeds 1000 ms, so at a gap of exactly 1000 ms it adds the
shift to the session (CLS 0.2); the code's `< 1000` test starts a new
session there instead (CLS 0.1). -/
theorem cls_boundary_counterexample :
    (clsRun [⟨0, 1/10, false⟩, ⟨1000, 1/10, false⟩]).clsValue = 1/10 ∧
    (clsRunClaim [⟨0, 1/10, false⟩, ⟨1000, 1/10, false⟩]).clsValue = 1/5 ∧
    (1/10 : ℚ) ≠ 1/5 := by
  refine ⟨?_, ?_, by norm_num⟩
  · norm_num [clsRun, clsStep, clsInit]
  · norm_num [clsRunClaim, clsStepClaim, clsInit]

/-- Claim C4: `sendReport` is a no-op on an empty buffer; otherwise it swaps
the entire buffer contents into the report envelope
`{url, userAgent, timestamp, metrics, summary}` before any send, and for
every transport outcome the buffer is empty afterwards — the swapped samples
are never re-buffered (the `catch` handler only logs, and only in debug
mode). -/
theorem sendReport_swap (env : Env) (st : MonitorState) (immediate : Bool) :
    (st.buffer = [] → sendReport env st immediate = (st, none)) ∧
    (st.buffer ≠ [] →
      (sendReport env st immediate).1 = { st with buffer := [] } ∧
      ∃ t, (sendReport env st immediate).2 =
        some ({ url := env.href, userAgent := env.userAgent,
                timestamp := env.now, metrics := st.buffer,
                summary := getSummary st.metrics }, t)) ∧
    ∀ ok : Bool, (afterTransport (sendReport env st immediate).1 ok).buffer = [] := by
  unfold sendReport afterTransport
  by_cases hb : st.buffer = []
  · simp [hb]
  · rw [if_neg (by simp [hb])]
    exact ⟨fun hc => absurd hc hb, fun _ => ⟨rfl, ⟨_, rfl⟩⟩, fun _ => rfl⟩

/-- Witness for C4: a non-empty buffer is swapped out whole. -/
theorem sendReport_swap_witness :
    (sendReport testEnv testState100 false).1 = { testState100 with buffer := [] } ∧
    ∃ t, (sendReport testEnv testState100 false).2 =
      some ({ url := testEnv.href, userAgent := testEnv.userAgent,
              timestamp := testEnv.now, metrics := testState100.buffer,
              summary := getSummary testState100.metrics }, t) :=
  (sendReport_swap testEnv testState100 false).2.1 (by simp [testState100])

/-- The state left by `destroy`: buffer flushed, observer disconnected,
report timer cleared; options and metrics untouched. -/
theorem destroy_state (env : Env) (st : MonitorState) :
    (destroy env st).1 =
      { st with
        buffer := []
        observerConnected := false
        reportTimerActive := false } := by
  unfold destroy sendReport
  by_cases hb : st.buffer = []
  · cases st
    simp_all
  · rw [if_neg (by simp [hb])]

/-- Claim C5: `destroy()` leaves zero buffered samples, and makes a transport
attempt — through the `sendReport(true)` immediate path, which is the beacon
when `navigator.sendBeacon` exists — if and only if the buffer was non-empty
at call time. -/
theorem destroy_flushes (env : Env) (st : MonitorState) :
    (destroy env st).1.buffer = [] ∧
    ((destroy env st).2.isSome ↔ st.buffer ≠ []) ∧
    (∀ r t, (destroy env st).2 = some (r, t) →
      env.sendBeaconAvailable = true → t = Transport.beacon) ∧
    (destroy env st).1.observerConnected = false ∧
    (destroy env st).1.reportTimerActive = false := by
  refine ⟨by rw [destroy_state], ?_, ?_, by rw [destroy_state], by rw [destroy_state]⟩
  · unfold destroy sendReport
    by_cases hb : st.buffer = []
    · simp [hb]
    · rw [if_neg (by simp [hb])]
      simpa using hb
  · intro r t h hbeacon
    unfold destroy sendReport at h
    by_cases hb : st.buffer = []
    · simp [hb] at h
    · rw [if_neg (by simp [hb])] at h
      simp only [Option.some.injEq, Prod.mk.injEq] at h
      rw [← h.2, hbeacon]
      simp

/-- Witness for C5: destroying a monitor with one buffered sample flushes it
and attempts a send. -/
theorem destroy_flushes_witness :
    (destroy testEnv testState100).1.buffer = [] ∧
    (destroy testEnv testState100).2.isSome :=
  ⟨(destroy_flushes testEnv testState100).1,
   ((destroy_flushes testEnv testState100).2.1).mpr (by simp [testState100])⟩

theorem reportMetric_options (env : Env) (st : MonitorState) (n p : String) :
    (reportMetric env st n p).1.options = st.options := by
  simp only [reportMetric, sendReport]
  split_ifs <;> rfl

theorem reportMetric_buffer_lt (env : Env) (st : MonitorState) (n p : String)
    (h : st.buffer.length + 1 < st.options.bufferSize) :
    (reportMetric env st n p).1.buffer =
      st.buffer ++ [{ name := n, data := p, timestamp := env.now }] ∧
    (reportMetric env st n p).2 = none := by
  simp only [reportMetric]
  rw [if_neg (by simp; omega)]
  exact ⟨rfl, rfl⟩

theorem reportMetric_buffer_ge (env : Env) (st : MonitorState) (n p : String)
    (h : st.options.bufferSize ≤ st.buffer.length + 1) :
    (reportMetric env st n p).1.buffer = [] ∧
    (reportMetric env st n p).2.isSome := by
  simp only [reportMetric, sendReport]
  rw [if_pos (by simp; omega), if_neg (by simp)]
  exact ⟨rfl, rfl⟩

/-- Counterexample to C7 as stated: `destroy()` sets no torn-down flag and
`reportMetric` never checks one, so a `reportMetric` call made after
`destroy()` still appends its sample — the buffer does not remain empty. -/
theorem record_after_destroy_counterexample :
    (reportMetric testEnv (destroy testEnv testState100).1 "custom" "p").1.buffer
      ≠ [] := by
  simp [reportMetric, sendReport, destroy, testEnv, testState100, testMetrics,
    getSummary]

/-- Claim C7 (amended): `destroy()` flushes the buffer, disconnects the stored
observer and clears the report timer, but it does not gate recording: any
subsequent `reportMetric` call appends its sample to the buffer exactly as
before teardown (shown here for capacity > 1, where the appended sample
stays buffered). -/
theorem record_after_destroy_appends (env : Env) (st : MonitorState)
    (n p : String) (h : 1 < st.options.bufferSize) :
    (reportMetric env (destroy env st).1 n p).1.buffer =
      [{ name := n, data := p, timestamp := env.now }] := by
  rw [destroy_state]
  have hlt := reportMetric_buffer_lt env
    { st with
      buffer := []
      observerConnected := false
      reportTimerActive := false } n p (by simpa using h)
  simpa using hlt.1

/-- Witness for C7 (amended): recording after destroy appends to the flushed
buffer. -/
theorem record_after_destroy_appends_witness :
    (reportMetric testEnv (destroy testEnv testState100).1 "custom" "p").1.buffer
      = [{ name := "custom", data := "p", timestamp := 1000 }] := by
  have h := record_after_destroy_appends testEnv testState100 "custom" "p"
    (by norm_num [testState100])
  simpa [testEnv] using h

theorem recordMany_append (env : Env) (l1 l2 : List (String × String)) :
    ∀ st : MonitorState,
      recordMany env st (l1 ++ l2) =
        ((recordMany env (recordMany env st l1).1 l2).1,
         (recordMany env st l1).2 +
           (recordMany env (recordMany env st l1).1 l2).2) := by
  induction l1 with
  | nil => intro st; simp [recordMany]
  | cons s l1 ih =>
      intro st
      simp only [List.cons_append, recordMany, List.append_eq]
      rw [ih]
      refine Prod.ext rfl ?_
      simp [Nat.add_assoc]

theorem reportMetric_len_lt (env : Env) (st : MonitorState) (n p : String)
    (hB : 0 < st.options.bufferSize)
    (h : st.buffer.length < st.options.bufferSize) :
    (reportMetric env st n p).1.buffer.length < st.options.bufferSize := by
  by_cases hcap : st.options.bufferSize ≤ st.buffer.length + 1
  · rw [(reportMetric_buffer_ge env st n p hcap).1]
    simpa using hB
  · push_neg at hcap
    rw [(reportMetric_buffer_lt env st n p hcap).1]
    simp only [List.length_append, List.length_cons, List.length_nil]
    omega

theorem recordMany_len_lt (env : Env) :
    ∀ (l : List (String × String)) (st : MonitorState),
      0 < st.options.bufferSize →
      st.buffer.length < st.options.bufferSize →
      (recordMany env st l).1.buffer.length < st.options.bufferSize ∧
      (recordMany env st l).1.options = st.options := by
  intro l
  induction l with
  | nil => intro st _ h; exact ⟨h, rfl⟩
  | cons s l ih =>
      intro st hB h
      have hopts := reportMetric_options env st s.1 s.2
      have hstep := reportMetric_len_lt env st s.1 s.2 hB h
      have := ih (reportMetric env st s.1 s.2).1 (by rw [hopts]; exact hB)
        (by rw [hopts]; exact hstep)
      simp only [recordMany]
      constructor
      · have h1 := this.1
        rw [hopts] at h1
        exact h1
      · rw [this.2, hopts]

theorem recordMany_fill (env : Env) :
    ∀ (l : List (String × String)) (st : MonitorState),
      st.buffer.length < st.options.bufferSize →
      l.length = st.options.bufferSize - st.buffer.length →
      (recordMany env st l).1.buffer = [] ∧ (recordMany env st l).2 = 1 ∧
      (recordMany env st l).1.options = st.options := by
  intro l
  induction l with
  | nil =>
      intro st h1 h2
      simp only [List.length_nil] at h2
      omega
  | cons s rest ih =>
      intro st h1 h2
      simp only [List.length_cons] at h2
      by_cases hcap : st.options.bufferSize ≤ st.buffer.length + 1
      · have hrest : rest = [] := List.length_eq_zero.mp (by omega)
        subst hrest
        obtain ⟨hb, hs⟩ := reportMetric_buffer_ge env st s.1 s.2 hcap
        have hopts := reportMetric_options env st s.1 s.2
        simp only [recordMany, hs]
        exact ⟨hb, rfl, hopts⟩
      · push_neg at hcap
        obtain ⟨hb, hnone⟩ := reportMetric_buffer_lt env st s.1 s.2 hcap
        have hopts := reportMetric_options env st s.1 s.2
        have ihstep := ih (reportMetric env st s.1 s.2).1
          (by rw [hopts, hb]; simp only [List.length_append, List.length_cons,
            List.length_nil]; omega)
          (by rw [hopts, hb]; simp only [List.length_append, List.length_cons,
            List.length_nil]; omega)
        simp only [recordMany, hnone, Option.isSome_none, Bool.false_eq_true,
          if_false, Nat.zero_add]
        exact ⟨ihstep.1, ihstep.2.1, ihstep.2.2.trans hopts⟩

theorem recordMany_no_flush (env : Env) :
    ∀ (l : List (String × String)) (st : MonitorState),
      st.buffer.length + l.length < st.options.bufferSize →
      (recordMany env st l).1.buffer.length = st.buffer.length + l.length ∧
      (recordMany env st l).2 = 0 := by
  intro l
  induction l with
  | nil => intro st _; exact ⟨by simp [recordMany], rfl⟩
  | cons s rest ih =>
      intro st h
      simp only [List.length_cons] at h
      have hcap : st.buffer.length + 1 < st.options.bufferSize := by omega
      obtain ⟨hb, hnone⟩ := reportMetric_buffer_lt env st s.1 s.2 hcap
      have hopts := reportMetric_options env st s.1 s.2
      have ihstep := ih (reportMetric env st s.1 s.2).1
        (by rw [hopts, hb]; simp only [List.length_append, List.length_cons,
          List.length_nil]; omega)
      simp only [recordMany, hnone, Option.isSome_none, Bool.false_eq_true,
        if_false, Nat.zero_add]
      refine ⟨?_, ihstep.2⟩
      rw [ihstep.1, hb]
      simp only [List.length_append, List.length_cons, List.length_nil]
      omega

/-- Claim C3: starting from any reachable buffer state (fewer than `bufferSize`
buffered samples), `bufferSize` consecutive `reportMetric` calls with no
intervening flush trigger exactly one automatic flush; immediately after the
triggering call the buffer is empty; and after every prefix of the calls the
buffer holds at most `bufferSize` samples. -/
theorem buffer_autoflush (env : Env) (st : MonitorState)
    (samples : List (String × String)) (hB : 0 < st.options.bufferSize)
    (hlen : st.buffer.length < st.options.bufferSize)
    (hn : samples.length = st.options.bufferSize) :
    (recordMany env st samples).2 = 1 ∧
    (recordMany env st
      (samples.take (st.options.bufferSize - st.buffer.length))).1.buffer = [] ∧
    (recordMany env st
      (samples.take (st.options.bufferSize - st.buffer.length))).2 = 1 ∧
    ∀ k : Nat, (recordMany env st (samples.take k)).1.buffer.length ≤
      st.options.bufferSize := by
  have htake : (samples.take (st.options.bufferSize - st.buffer.length)).length
      = st.options.bufferSize - st.buffer.length := by
    rw [List.length_take]
    omega
  have hfill := recordMany_fill env
    (samples.take (st.options.bufferSize - st.buffer.length)) st hlen htake
  refine ⟨?_, hfill.1, hfill.2.1, ?_⟩
  · have hsplit := recordMany_append env
      (samples.take (st.options.bufferSize - st.buffer.length))
      (samples.drop (st.options.bufferSize - st.buffer.length)) st
    rw [List.take_append_drop] at hsplit
    rw [hsplit, hfill.2.1]
    have hnf := recordMany_no_flush env
      (samples.drop (st.options.bufferSize - st.buffer.length))
      (recordMany env st
        (samples.take (st.options.bufferSize - st.buffer.length))).1
      (by rw [hfill.2.2, hfill.1, List.length_drop, hn]
          simp only [List.length_nil]
          omega)
    rw [hnf.2]
  · intro k
    exact le_of_lt (recordMany_len_lt env (samples.take k) st hB hlen).1

/-- Witness for C3: capacity 2, empty buffer, two records — one flush, empty
buffer right after it. -/
theorem buffer_autoflush_witness :
    (recordMany testEnv testState2 [("a", "x"), ("b", "y")]).2 = 1 ∧
    (recordMany testEnv testState2 ([("a", "x"), ("b", "y")].take
      (testState2.options.bufferSize - testState2.buffer.length))).1.buffer = [] := by
  have h := buffer_autoflush testEnv testState2 [("a", "x"), ("b", "y")]
    (by norm_num [testState2]) (by norm_num [testState2]) (by norm_num [testState2])
  exact ⟨h.1, h.2.1⟩

/-- Claim C8 (amended): `slow_loading` is flagged iff
`responseEnd - startTime > 3000` (strict); `poor_compression` is flagged iff
`transferSize > 1,000,000` **and the compression percentage as the code
computes it** — rounded to one decimal by `toFixed(1)`, and 0 when
`encodedBodySize = 0` — is `< 50`; `not_cached` is flagged iff the URL
matches the extension regex **and the entry is not a cache hit, where a
cache hit requires both zero transfer size and a positive decoded body
size** (zero transfer size alone is not sufficient). -/
theorem classifier_issue_characterization (e : ResourceEntry) :
    ("slow_loading" ∈ analyzeResourcePerformance e ↔
      3000 < e.responseEnd - e.startTime) ∧
    ("poor_compression" ∈ analyzeResourcePerformance e ↔
      1000000 < e.transferSize ∧ compressionOf e < 50) ∧
    ("not_cached" ∈ analyzeResourcePerformance e ↔
      ¬(e.transferSize = 0 ∧ 0 < e.decodedBodySize) ∧
      matchesCacheableExt e.name = true) := by
  have hrc : (e.transferSize = 0 ∧ 0 < e.decodedBodySize) ↔
      resourceCached e = true := by
    unfold resourceCached
    rw [Bool.and_eq_true]
    constructor
    · intro hx
      exact ⟨decide_eq_true hx.1, decide_eq_true hx.2⟩
    · intro hx
      exact ⟨of_decide_eq_true hx.1, of_decide_eq_true hx.2⟩
  unfold analyzeResourcePerformance
  cases hb3 : resourceCached e <;> cases hb4 : matchesCacheableExt e.name <;>
    by_cases h1 : 3000 < e.responseEnd - e.startTime <;>
      by_cases h2 : 1000000 < e.transferSize ∧ compressionOf e < 50 <;>
        simp [hb3, hb4, h1, h2, hrc]

/-- Witness for C8 (amended): the spec's own boundary example — duration
3001 ms is flagged `slow_loading`. -/
theorem classifier_issue_characterization_witness :
    "slow_loading" ∈ analyzeResourcePerformance
      { name := "page.html", transferSize := 10, decodedBodySize := 10,
        encodedBodySize := 5, startTime := 0, responseEnd := 3001 } :=
  (classifier_issue_characterization _).1.mpr (by norm_num)

/-- Counterexample to C8 as stated: a `.css` resource with zero transfer
size and zero decoded body size.  The claim treats zero transfer size as a
cache hit, so `not_cached` must not be flagged; the code requires
`decodedBodySize > 0` as well, computes `cached = false`, and flags
`not_cached`. -/
theorem classifier_cached_counterexample :
    analyzeResourcePerformance
      { name := "style.css", transferSize := 0, decodedBodySize := 0,
        encodedBodySize := 0, startTime := 0, responseEnd := 100 } =
      ["not_cached"] ∧
    analyzeResourceClaim
      { name := "style.css", transferSize := 0, decodedBodySize := 0,
        encodedBodySize := 0, startTime := 0, responseEnd := 100 } = [] := by
  constructor
  · have h : matchesCacheableExt "style.css" = true := by decide
    norm_num [analyzeResourcePerformance, resourceCached, compressionOf, h]
  · norm_num [analyzeResourceClaim]

end PerfMonitor
